import Mathlib

/-
Verification of the segment-relevance scoring engine of the YouTube analyzer
repository (main-app.py, main-app-v2.py, main_app-v3.py, config.py).

Modelling conventions:
* Python strings are modelled as `List Char`; string literals are written as
  explicit character lists.
* Python floats are modelled as exact rationals (`ℚ`).  All score arithmetic
  in the source uses small dyadic/decimal constants, so the idealization is
  faithful on every input used below.
* Externally fetched inputs (description, duration, comments, captions,
  heatmap segments) are parameters of the modelled functions, mirroring the
  spec's external-collaborator interface; the fetching code itself is out of
  scope.
* The `url` fields of the produced segment dictionaries (pure formatting
  derived from the video url and `start_time`) and the redundant `'type'`
  key of the intro hook are not modelled; no claim mentions them.
-/

/-- The six whitespace characters recognized by Python's `str.split()` /
`str.strip()` for ASCII input. -/
def isPySpace (c : Char) : Bool :=
  c == ' ' || c == '\t' || c == '\n' || c == '\r' || c == '\x0b' || c == '\x0c'

/-- Python `str.lower()` restricted to ASCII (all inputs in the repository's
scoring paths that the claims touch are ASCII). -/
def toLowerStr (s : List Char) : List Char :=
  s.map Char.toLower

/-- Python `s.split(sep)` for a single-character separator `c`: splits at
every occurrence, keeping empty fragments (`"::".split(':') = ['','','']`,
`"".split(':') = ['']`). -/
def splitOnChar (c : Char) : List Char → List (List Char)
  | [] => [[]]
  | x :: xs =>
    if x = c then [] :: splitOnChar c xs
    else
      match splitOnChar c xs with
      | [] => [[x]]
      | h :: t => (x :: h) :: t

/-- Python `line.split(' ', 1)`: `none` when the line contains no space
(the caller's `len(parts) < 2` skip), otherwise the fragments before and
after the first space. -/
def pySplitFirstSpace : List Char → Option (List Char × List Char)
  | [] => none
  | x :: xs =>
    if x = ' ' then some ([], xs)
    else
      match pySplitFirstSpace xs with
      | none => none
      | some (a, b) => some (x :: a, b)

/-- Accumulator for `splitWs`; `cur` holds the current word reversed. -/
def splitWsAux : List Char → List Char → List (List Char)
  | cur, [] => if cur.isEmpty then [] else [cur.reverse]
  | cur, c :: rest =>
    if isPySpace c then
      if cur.isEmpty then splitWsAux [] rest
      else cur.reverse :: splitWsAux [] rest
    else splitWsAux (c :: cur) rest

/-- Python no-argument `str.split()`: split on runs of whitespace, dropping
empty fragments. -/
def splitWs (s : List Char) : List (List Char) :=
  splitWsAux [] s

/-- Python `str.strip()` (no argument): remove leading and trailing
whitespace. -/
def pyStrip (s : List Char) : List Char :=
  ((s.dropWhile isPySpace).reverse.dropWhile isPySpace).reverse

/-- Decimal value of a digit list. -/
def digitsVal (l : List Char) : Nat :=
  l.foldl (fun a c => 10 * a + (c.toNat - 48)) 0

/-- Python `int(s)` over the ASCII fragment: strips surrounding
whitespace, then accepts an optional single `'-'`/`'+'` sign followed by a
nonempty run of digits — so signed groups like `'-10'` succeed, with value
`-10`, exactly as in the source (a description token `'-10:30'` is
accepted by the chapter gate).  `none` models a raised `ValueError`.
Underscore separators and non-ASCII digit classes, which `int()` also
accepts, stay outside this ASCII-scoped embedding. -/
def pyInt (s : List Char) : Option Int :=
  match pyStrip s with
  | [] => none
  | c :: ds =>
    if c = '-' then
      if ds.isEmpty then none
      else if ds.all Char.isDigit then some (-(digitsVal ds : Int)) else none
    else if c = '+' then
      if ds.isEmpty then none
      else if ds.all Char.isDigit then some ((digitsVal ds : Int)) else none
    else if (c :: ds).all Char.isDigit then some ((digitsVal (c :: ds) : Int))
    else none

/-- `segStartsWith n h` is true iff `n` is a prefix segment of `h`. -/
def segStartsWith : List Char → List Char → Bool
  | [], _ => true
  | _ :: _, [] => false
  | a :: as, b :: bs => a == b && segStartsWith as bs

/-- Python substring containment `needle in hay` (contiguous subsegment;
the empty needle is contained in everything). -/
def containsSeg (needle : List Char) : List Char → Bool
  | [] => needle.isEmpty
  | c :: t => segStartsWith needle (c :: t) || containsSeg needle t

/-- Python `list.index(x)`: index of the first occurrence (callers only use
it on elements of the list). -/
def firstIdx (l : List (List Char)) (x : List Char) : Nat :=
  match l with
  | [] => 0
  | h :: t => if h = x then 0 else firstIdx t x + 1

/-- Python slice `l[a:b]` for nonnegative bounds. -/
def pySlice {α : Type} (l : List α) (a b : Nat) : List α :=
  (l.take b).drop a

/-- Python `' '.join(parts)`. -/
def joinSpace : List (List Char) → List Char
  | [] => []
  | [x] => x
  | x :: y :: t => x ++ ' ' :: joinSpace (y :: t)

/-- The timestamp-to-seconds conversion shared by all revisions
(main-app.py lines 98-99, main-app-v2.py, main_app-v3.py lines 96-97 and
192-193):
`seconds = sum(x * int(t) for x, t in zip([3600, 60, 1], time_parts[-3:]))`
after `time_parts = time_str.split(':')`.  `none` models the `int()`
exception caught by the caller.  Note that `zip` pairs the weight `3600`
with the FIRST of the (at most three) last groups, so a two-group token is
weighted `3600*first + 60*second`; and since `int()` accepts signed
groups, the sum can be negative. -/
def parseTimestamp (tstr : List Char) : Option Int :=
  let parts := splitOnChar ':' tstr
  let lastThree := parts.drop (parts.length - 3)
  (List.zip ([3600, 60, 1] : List Int) lastThree).foldr
    (fun wt acc =>
      match pyInt wt.2, acc with
      | some v, some a => some (wt.1 * v + a)
      | _, _ => none)
    (some 0)

/-- Fuelled decimal rendering of a natural number (fuel keeps the
definition structurally recursive so that the kernel can evaluate it). -/
def natToDecimalAux : Nat → Nat → List Char
  | 0, _ => []
  | fuel + 1, n =>
    if n < 10 then [Nat.digitChar n]
    else natToDecimalAux fuel (n / 10) ++ [Nat.digitChar (n % 10)]

/-- Python `str(n)` for a natural number. -/
def natToDecimal (n : Nat) : List Char :=
  natToDecimalAux (n + 1) n

/-- Two-digit zero-padded rendering, correct for `n < 100` (the only range
the round-trip claim uses). -/
def pad2 (n : Nat) : List Char :=
  [Nat.digitChar (n / 10), Nat.digitChar (n % 10)]

/-- Modelled from the spec: the `H:MM:SS` clock formatting of a number of
seconds (hours unpadded, minutes and seconds zero-padded), the formatting
whose left inverse the spec claims `TimestampParser` to be.  No formatter
lives in the scoring core itself, so this definition follows the claim's
words. -/
def formatHMS (s : Nat) : List Char :=
  natToDecimal (s / 3600) ++ ':' :: (pad2 ((s % 3600) / 60) ++ ':' :: pad2 (s % 60))

example : splitOnChar ':' ['a', ':', ':', 'b'] = [['a'], [], ['b']] := by decide
example : pySplitFirstSpace ['a', 'b', ' ', 'c', ' ', 'd'] = some (['a', 'b'], ['c', ' ', 'd']) := by decide
example : splitWs [' ', 'a', 'b', ' ', ' ', 'c', ' '] = [['a', 'b'], ['c']] := by decide
example : pyInt ['0', '7'] = some 7 := by decide
example : pyInt ['1', 'h'] = none := by decide
example : pyInt ['-', '1', '0'] = some (-10) := by decide
example : pyInt ['+', '5'] = some 5 := by decide
example : pyInt ['-'] = none := by decide
example : parseTimestamp ['1', ':', '2', '3'] = some 4980 := by decide
example : parseTimestamp ['0', ':', '0', '1', ':', '2', '3'] = some 83 := by decide
example : parseTimestamp ['-', '1', '0', ':', '3', '0'] = some (-34200) := by decide
example : containsSeg ['b', 'c'] ['a', 'b', 'c', 'd'] = true := by decide
example : containsSeg ['x'] ['a', 'b'] = false := by decide
example : formatHMS 3723 = ['1', ':', '0', '2', ':', '0', '3'] := by decide
example : natToDecimal 120 = ['1', '2', '0'] := by decide

/-
Rational arithmetic wrappers.  `Rat.add`/`Rat.mul` are `@[irreducible]`
in the ambient library, which blocks kernel evaluation of concrete score
computations; `qAdd`/`qMul` are the same functions expressed through
`Rat.divInt` (kernel-computable), and the bridge lemmas `qAdd_eq`/`qMul_eq`
prove they agree with `+` and `*` on ℚ everywhere, so the scoring
definitions below compute exactly the rational sums and products of the
source. -/

/-- Rational addition, expressed computably; equal to `+` by `qAdd_eq`. -/
def qAdd (a b : ℚ) : ℚ :=
  Rat.divInt (a.num * b.den + b.num * a.den) ((a.den : Int) * b.den)

/-- Rational multiplication, expressed computably; equal to `*` by
`qMul_eq`. -/
def qMul (a b : ℚ) : ℚ :=
  Rat.divInt (a.num * b.num) ((a.den : Int) * b.den)

theorem qAdd_eq (a b : ℚ) : qAdd a b = a + b := by
  rw [qAdd, Rat.add_def', Rat.mkRat_eq_divInt, Int.natCast_mul]

theorem qMul_eq (a b : ℚ) : qMul a b = a * b := by
  rw [qMul]
  conv_rhs => rw [← Rat.num_divInt_den a, ← Rat.num_divInt_den b]
  rw [Rat.divInt_mul_divInt']

/-- `Rat.divInt` on naturals is ordinary division of rationals. -/
theorem divInt_natCast_eq (m n : Nat) : Rat.divInt m n = (m : ℚ) / (n : ℚ) := by
  rw [Rat.divInt_eq_div]; norm_num

/-- A scored segment ("hook"), the value-like record produced by the
analyzers.  `context` is `some _` only for description chapters of the
merged-list revisions (v3 drops it); the derived `url` field is omitted. -/
structure Hook where
  start_time : Int
  duration : Nat
  relevance_score : ℚ
  segment_type : List Char
  title : List Char
  context : Option (List Char)
deriving DecidableEq, Repr

/-- `'intro'`. -/
def strIntro : List Char := ['i', 'n', 't', 'r', 'o']

/-- `'keyword_match'`. -/
def strKeywordMatch : List Char :=
  ['k', 'e', 'y', 'w', 'o', 'r', 'd', '_', 'm', 'a', 't', 'c', 'h']

/-- `'engagement'`. -/
def strEngagement : List Char :=
  ['e', 'n', 'g', 'a', 'g', 'e', 'm', 'e', 'n', 't']

/-- `'transcript_match'`. -/
def strTranscriptMatch : List Char :=
  ['t', 'r', 'a', 'n', 's', 'c', 'r', 'i', 'p', 't', '_', 'm', 'a', 't', 'c', 'h']

/-- `'user_engagement'`. -/
def strUserEngagement : List Char :=
  ['u', 's', 'e', 'r', '_', 'e', 'n', 'g', 'a', 'g', 'e', 'm', 'e', 'n', 't']

/-- `'Opening Hook'`. -/
def strOpeningHook : List Char :=
  ['O', 'p', 'e', 'n', 'i', 'n', 'g', ' ', 'H', 'o', 'o', 'k']

/-- The engagement-indicator phrases of main-app.py (line 82) and
main-app-v2.py (identical 11-element list). -/
def indicatorsV1 : List (List Char) :=
  [ ['h', 'i', 'g', 'h', 'l', 'i', 'g', 'h', 't'],
    ['b', 'e', 's', 't'],
    ['t', 'o', 'p'],
    ['i', 'm', 'p', 'o', 'r', 't', 'a', 'n', 't'],
    ['k', 'e', 'y'],
    ['m', 'a', 'i', 'n'],
    ['c', 'r', 'u', 'c', 'i', 'a', 'l'],
    ['m', 'u', 's', 't', ' ', 's', 'e', 'e'],
    ['a', 'm', 'a', 'z', 'i', 'n', 'g'],
    ['a', 'w', 'e', 's', 'o', 'm', 'e'],
    ['p', 'e', 'r', 'f', 'e', 'c', 't'] ]

/-- The 17 engagement-indicator phrases of main_app-v3.py (lines 43-48). -/
def indicatorsV3 : List (List Char) :=
  indicatorsV1 ++
  [ ['f', 'a', 'v', 'o', 'r', 'i', 't', 'e'],
    ['b', 'e', 's', 't', ' ', 'p', 'a', 'r', 't'],
    ['d', 'o', 'n', 't', ' ', 'm', 'i', 's', 's'],
    ['d', 'o', 'n', '\'', 't', ' ', 'm', 'i', 's', 's'],
    ['w', 'a', 't', 'c', 'h', ' ', 't', 'h', 'i', 's'],
    ['c', 'h', 'e', 'c', 'k', ' ', 'o', 'u', 't'],
    ['l', 'o', 'o', 'k', ' ', 'a', 't'] ]

example : indicatorsV1.length = 11 := by decide
example : indicatorsV3.length = 18 := by decide

/-- The intro hook every merged-list analysis prepends (main-app.py lines
66-75): `start_time 0`, `duration 5`, `relevance_score 1.0`,
`segment_type 'intro'`, title `'Opening Hook'`. -/
def introHook : Hook :=
  { start_time := 0, duration := 5, relevance_score := 1,
    segment_type := strIntro, title := strOpeningHook, context := none }

/-- Title score (main-app.py lines 106-108):
`len(search_terms ∩ set(title.lower().split())) / len(search_terms)`,
with the `0.5` neutral fallback for an empty search-term set.
`st` is the deduplicated lowered keyword set. -/
def titleScoreOf (st : List (List Char)) (title : List Char) : ℚ :=
  if st = [] then Rat.divInt 1 2
  else Rat.divInt
    ((st.filter (fun t => (splitWs (toLowerStr title)).contains t)).length : Int)
    (st.length : Int)

/-- The chapter context window (main-app.py lines 110-113): the slice
`description_lines[max(0, i-2) : min(len, i+3)]` around
`i = description_lines.index(line)` (the FIRST occurrence of the line's
text), joined with spaces and lower-cased. -/
def contextOf (descLines : List (List Char)) (line : List Char) : List Char :=
  toLowerStr (joinSpace (pySlice descLines (firstIdx descLines line - 2)
    (min descLines.length (firstIdx descLines line + 3))))

/-- Context score (main-app.py lines 116-117): the number of search terms
occurring as substrings of the context, over `len(search_terms)`; `0` when
the search-term set is empty. -/
def ctxScoreOf (st : List (List Char)) (context : List Char) : ℚ :=
  if st = [] then 0
  else Rat.divInt ((st.filter (fun t => containsSeg t context)).length : Int)
    (st.length : Int)

/-- Number of indicator phrases occurring as substrings of the lowered
title (main_app-v3.py line 205). -/
def hitsCount (inds : List (List Char)) (title : List Char) : Nat :=
  (inds.filter (fun i => containsSeg i (toLowerStr title))).length

/-- The shared chapter-line gate (identical in all three revisions,
main-app.py lines 85-103): a line is processed iff it contains `':'` and a
digit; it is split once on the first space into timestamp token and title;
the token must contain `':'` and convert via `parseTimestamp`; the parsed
offset must be `< duration` (`seconds >= duration` is skipped).  Returns
the parsed offset and the raw title. -/
def lineTimestamp (dur : Nat) (line : List Char) : Option (Int × List Char) :=
  if ':' ∈ line ∧ line.any Char.isDigit then
    match pySplitFirstSpace line with
    | none => none
    | some (tstr, title) =>
      if ':' ∈ tstr then
        match parseTimestamp tstr with
        | none => none
        | some seconds =>
          if seconds < (dur : Int) then some (seconds, title) else none
      else none
  else none

/-- The chapter record built by main-app.py lines 105-140 (identical in
main-app-v2.py): weighted score
`title*0.6 + context*0.2 (+0.2 flat engagement bonus)`, stripped title,
context attached, type `'engagement'` iff any indicator matched. -/
def mkChapterV1 (st descLines : List (List Char)) (line title : List Char)
    (seconds : Int) : Hook :=
  let context := contextOf descLines line
  let boost := indicatorsV1.any (fun i => containsSeg i (toLowerStr title))
  { start_time := seconds, duration := 5,
    relevance_score := qAdd
      (qAdd (qMul (titleScoreOf st title) (Rat.divInt 6 10))
            (qMul (ctxScoreOf st context) (Rat.divInt 2 10)))
      (if boost then Rat.divInt 2 10 else 0),
    segment_type := if boost then strEngagement else strKeywordMatch,
    title := pyStrip title, context := some context }

/-- One loop iteration of the v1/v2 chapter extraction. -/
def processLineV1 (st descLines : List (List Char)) (dur : Nat)
    (line : List Char) : Option Hook :=
  (lineTimestamp dur line).map (fun p => mkChapterV1 st descLines line p.2 p.1)

/-- The chapter record built by main_app-v3.py lines 198-218: score
`title_score + (hits / 17) * 0.3`, no context, type always
`'keyword_match'`. -/
def mkChapterV3 (st : List (List Char)) (title : List Char) (seconds : Int) : Hook :=
  { start_time := seconds, duration := 5,
    relevance_score := qAdd (titleScoreOf st title)
      (qMul (Rat.divInt (hitsCount indicatorsV3 title : Int) (indicatorsV3.length : Int))
            (Rat.divInt 3 10)),
    segment_type := strKeywordMatch,
    title := pyStrip title, context := none }

/-- One loop iteration of the v3 chapter extraction. -/
def processLineV3 (st : List (List Char)) (dur : Nat) (line : List Char) :
    Option Hook :=
  (lineTimestamp dur line).map (fun p => mkChapterV3 st p.2 p.1)

/-- Stable descending insertion: place `x` before the first element whose
key is `≤ key x`.  `pySortDesc` below is then exactly Python's stable
`sorted(l, key=key, reverse=True)`. -/
def insDesc {α : Type} (key : α → ℚ) (x : α) : List α → List α
  | [] => [x]
  | y :: ys => if key y ≤ key x then x :: y :: ys else y :: insDesc key x ys

/-- Python `sorted(l, key=key, reverse=True)` (Timsort is stable, and the
stable descending sort is a unique function of the input, realized here by
stable insertion). -/
def pySortDesc {α : Type} (key : α → ℚ) (l : List α) : List α :=
  l.foldr (insDesc key) []

/-- main-app.py `_analyze_segments` (lines 56-152): intro hook, description
chapters scored and sorted (stable, descending), top 5 kept, then one final
stable descending sort of everything by `relevance_score`.
`kw` is the incoming `query_keywords` list; `set(word.lower() ...)` is
modelled as lowering plus deduplication. -/
def analyzeSegmentsV1 (kw : List (List Char)) (description : List Char)
    (dur : Nat) : List Hook :=
  pySortDesc (fun h => h.relevance_score)
    (introHook ::
      (pySortDesc (fun h => h.relevance_score)
        ((splitOnChar '\n' description).filterMap
          (processLineV1 ((kw.map toLowerStr).dedup)
            (splitOnChar '\n' description) dur))).take 5)

example :
    analyzeSegmentsV1 [['x', 'y']] ['0', ':', '1', '0', ' ', 'x', 'y'] 1000 =
      [ introHook,
        { start_time := 600, duration := 5, relevance_score := Rat.divInt 4 5,
          segment_type := strKeywordMatch, title := ['x', 'y'],
          context := some ['0', ':', '1', '0', ' ', 'x', 'y'] } ] := by decide

/-- A caption/transcript entry `(text, start)` as consumed by
main-app-v2.py `_analyze_captions` (the float `start` is truncated with
`int()` when the segment is built; it is modelled as the truncated
natural). -/
structure CaptionEntry where
  text : List Char
  start : Int
deriving DecidableEq, Repr

/-- `'Keyword mention: '`. -/
def strKeywordMention : List Char :=
  ['K', 'e', 'y', 'w', 'o', 'r', 'd', ' ', 'm', 'e', 'n', 't', 'i', 'o', 'n', ':', ' ']

/-- `'...'`. -/
def strDots : List Char := ['.', '.', '.']

/-- main-app-v2.py `_analyze_captions` (lines 92-120): for each caption
entry count the query keywords occurring as substrings of the lowered
text; on ≥ 1 match emit a `transcript_match` segment with score
`matches / len(query_keywords)` and a truncated (50-character) preview
title; stable-sort descending and keep the top 3.  `kw` is the raw
`query_keywords` list (already lower-cased by the caller). -/
def analyzeCaptionsV2 (kw : List (List Char)) (captions : List CaptionEntry) :
    List Hook :=
  (pySortDesc (fun h => h.relevance_score)
    (captions.filterMap (fun cap =>
      let text := toLowerStr cap.text
      let matching := (kw.filter (fun w => containsSeg w text)).length
      if 0 < matching then
        some { start_time := cap.start, duration := 5,
               relevance_score := Rat.divInt (matching : Int) (kw.length : Int),
               segment_type := strTranscriptMatch,
               title := strKeywordMention ++ (text.take 50 ++ strDots),
               context := none }
      else none))).take 3

/-- The final sort key of main-app-v2.py lines 203-206: transcript matches
are boosted by the factor 1.2 before comparison. -/
def v2SortKey (h : Hook) : ℚ :=
  if h.segment_type = strTranscriptMatch then qMul h.relevance_score (Rat.divInt 6 5)
  else h.relevance_score

/-- main-app-v2.py `_analyze_segments` (lines 122-208): intro hook, then
(optionally) caption segments, then the top-5 description chapters (same
chapter code as main-app.py), finally one stable descending sort under the
transcript-boosted key.  The externally fetched transcript is the
`captions` parameter. -/
def analyzeSegmentsV2 (kw : List (List Char)) (description : List Char)
    (dur : Nat) (useCaptions : Bool) (captions : List CaptionEntry) : List Hook :=
  pySortDesc v2SortKey
    (introHook ::
      ((if useCaptions then analyzeCaptionsV2 kw captions else []) ++
        (pySortDesc (fun h => h.relevance_score)
          ((splitOnChar '\n' description).filterMap
            (processLineV1 ((kw.map toLowerStr).dedup)
              (splitOnChar '\n' description) dur))).take 5))

/-- An entry of main_app-v3.py `_get_engagement_metrics`' output:
a comment-mentioned offset with its mention count and normalized score. -/
structure EngSeg where
  start_time : Int
  frequency : Nat
  relevance_score : ℚ
deriving DecidableEq, Repr

/-- The regex fragment `(\d+u)?` for a unit letter `u` at the start of the
remaining input: a nonempty maximal digit run immediately followed by `u`,
or the empty match.  Returns (consumed, rest). -/
def optUnit (u : Char) (s : List Char) : List Char × List Char :=
  match s.takeWhile Char.isDigit, s.dropWhile Char.isDigit with
  | [], _ => ([], s)
  | _ :: _, [] => ([], s)
  | d :: ds, c :: r2 => if c = u then ((d :: ds) ++ [u], r2) else ([], s)

/-- The first alternative `(\d+h)?(\d+m)?(\d+s)?` of the v3 comment
timestamp pattern (main_app-v3.py line 87), matched greedily at the
current position.  Because every group is optional this alternative always
succeeds (possibly with the empty match), so the regex engine never tries
the colon alternative `(\d+:)?(\d+):(\d+)`. -/
def matchA (s : List Char) : List Char × List Char :=
  let p1 := optUnit 'h' s
  let p2 := optUnit 'm' p1.2
  let p3 := optUnit 's' p2.2
  (p1.1 ++ p2.1 ++ p3.1, p3.2)

/-- `re.finditer` of the v3 timestamp pattern over the input: at each
position the (always-succeeding) first alternative is matched; a
zero-length match advances the scan by one character, a nonempty match by
its length; a final empty match is produced at the end position.  Fuelled
so the definition is structurally recursive (`length + 1` fuel always
suffices since every step consumes at least one character or one unit of
fuel at the very end). -/
def findAllAux : Nat → List Char → List (List Char)
  | 0, _ => []
  | _ + 1, [] => [[]]
  | fuel + 1, c :: rest =>
    if (matchA (c :: rest)).1 = [] then [] :: findAllAux fuel rest
    else (matchA (c :: rest)).1 :: findAllAux fuel (matchA (c :: rest)).2

/-- All pattern matches over a string. -/
def findAll (s : List Char) : List (List Char) :=
  findAllAux (s.length + 1) s

/-- Frequency table in first-occurrence order: the model of
`collections.Counter` over a list of offsets (`most_common` sorts items by
count, stable in insertion = first-occurrence order). -/
def distinctFirst : List Int → List Int
  | [] => []
  | x :: xs => x :: (distinctFirst xs).filter (fun y => y ≠ x)

/-- `Counter(l)` as an association list in first-occurrence order. -/
def tally (l : List Int) : List (Int × Nat) :=
  (distinctFirst l).map (fun x => (x, (l.filter (fun y => y = x)).length))

/-- main_app-v3.py `_get_engagement_metrics` (lines 73-117), with the
externally fetched comment texts as input: lower each comment, run the
timestamp pattern over it, convert each match's `group().split(':')` via
the shared zip/sum conversion (`parseTimestamp`), tally the successful
conversions, and—when the tally is nonempty—emit the 10 most common
offsets scored `count / max_count`. -/
def engagementMetricsV3 (comments : List (List Char)) : List EngSeg :=
  let offsets := (comments.map (fun c => (findAll (toLowerStr c)).filterMap parseTimestamp)).flatten
  match tally offsets with
  | [] => []
  | counts@(_ :: _) =>
    ((pySortDesc (fun p => ((p.2 : Int) : ℚ)) counts).take 10).map
      (fun p =>
        { start_time := p.1, frequency := p.2,
          relevance_score :=
            Rat.divInt (p.2 : Int) (((counts.map Prod.snd).foldl Nat.max 0 : Nat) : Int) })

/-- `'Popular Segment (mentioned '`. -/
def strPopularA : List Char :=
  ['P', 'o', 'p', 'u', 'l', 'a', 'r', ' ', 'S', 'e', 'g', 'm', 'e', 'n', 't', ' ',
   '(', 'm', 'e', 'n', 't', 'i', 'o', 'n', 'e', 'd', ' ']

/-- `' times)'`. -/
def strPopularB : List Char := [' ', 't', 'i', 'm', 'e', 's', ')']

/-- The comments-bucket hook built from an engagement entry
(main_app-v3.py lines 167-175). -/
def engToHook (e : EngSeg) : Hook :=
  { start_time := e.start_time, duration := 5,
    relevance_score := e.relevance_score,
    segment_type := strUserEngagement,
    title := strPopularA ++ natToDecimal e.frequency ++ strPopularB,
    context := none }

/-- An externally supplied replay-heatmap segment (the shape produced by
`_get_most_replayed_segments`' source data: `start`, `end`, `intensity`). -/
structure HeatSeg where
  segStart : Nat
  segEnd : Nat
  intensity : ℚ
deriving DecidableEq, Repr

/-- A most-replayed output record (main_app-v3.py lines 143-149). -/
structure ReplaySeg where
  start_time : Nat
  end_time : Nat
  intensity : ℚ
deriving DecidableEq, Repr

/-- The bucketed result of main_app-v3.py `_analyze_segments`. -/
structure HooksV3 where
  comments : List Hook
  description : List Hook
  most_replayed : List ReplaySeg
deriving DecidableEq, Repr

/-- main_app-v3.py `_analyze_segments` (lines 156-229): three per-source
buckets and NO synthesized intro segment.  The externally fetched comments
and heatmap data are parameters. -/
def analyzeSegmentsV3 (kw : List (List Char)) (description : List Char)
    (dur : Nat) (comments : List (List Char)) (heatmap : List HeatSeg) : HooksV3 :=
  { comments := (engagementMetricsV3 comments).map engToHook,
    description :=
      (pySortDesc (fun h => h.relevance_score)
        ((splitOnChar '\n' description).filterMap
          (processLineV3 ((kw.map toLowerStr).dedup) dur))).take 5,
    most_replayed := heatmap.map
      (fun s => { start_time := s.segStart, end_time := s.segEnd,
                  intensity := s.intensity }) }

example : matchA ['2', 'm', '1', '0', 's', 'x'] = (['2', 'm', '1', '0', 's'], ['x']) := by decide
example : matchA ['1', ':', '3', '0'] = ([], ['1', ':', '3', '0']) := by decide
example :
    findAll ['a', '1', 'h', '2', ':'] = [[], ['1', 'h'], [], [], []] := by decide
example :
    engagementMetricsV3 [['c', 'h', 'e', 'c', 'k', ' ', '1', ':', '3', '0']] = [] := by decide

/-- Membership in a stable descending insertion. -/
theorem mem_insDesc {α : Type} (key : α → ℚ) (x a : α) (l : List α) :
    a ∈ insDesc key x l ↔ a = x ∨ a ∈ l := by
  induction l with
  | nil => simp [insDesc]
  | cons y ys ih =>
    rw [insDesc]
    by_cases h : key y ≤ key x
    · rw [if_pos h]
      simp
    · rw [if_neg h]
      simp only [List.mem_cons, ih]
      tauto

/-- Membership in the stable descending sort. -/
theorem mem_pySortDesc {α : Type} (key : α → ℚ) (a : α) (l : List α) :
    a ∈ pySortDesc key l ↔ a ∈ l := by
  induction l with
  | nil => simp [pySortDesc]
  | cons y ys ih =>
    show a ∈ insDesc key y (pySortDesc key ys) ↔ _
    rw [mem_insDesc, ih]
    simp

/-- Inserting preserves being sorted in weakly descending key order. -/
theorem pairwise_insDesc {α : Type} (key : α → ℚ) (x : α) (l : List α)
    (h : l.Pairwise (fun a b => key b ≤ key a)) :
    (insDesc key x l).Pairwise (fun a b => key b ≤ key a) := by
  induction l with
  | nil => simp [insDesc]
  | cons y ys ih =>
    rw [insDesc]
    rcases List.pairwise_cons.mp h with ⟨h1, h2⟩
    by_cases hxy : key y ≤ key x
    · rw [if_pos hxy]
      refine List.pairwise_cons.mpr ⟨?_, h⟩
      intro z hz
      rcases List.mem_cons.mp hz with rfl | hz'
      · exact hxy
      · exact le_trans (h1 z hz') hxy
    · rw [if_neg hxy]
      refine List.pairwise_cons.mpr ⟨?_, ih h2⟩
      intro z hz
      rcases (mem_insDesc key x z ys).mp hz with rfl | hz'
      · exact le_of_not_le hxy
      · exact h1 z hz'

/-- The stable descending sort is sorted in weakly descending key order. -/
theorem pairwise_pySortDesc {α : Type} (key : α → ℚ) (l : List α) :
    (pySortDesc key l).Pairwise (fun a b => key b ≤ key a) := by
  induction l with
  | nil => simp [pySortDesc]
  | cons y ys ih => exact pairwise_insDesc key y (pySortDesc key ys) ih

/-- Inversion of the shared chapter-line gate: a produced pair has an
in-range offset obtained by `parseTimestamp` from the token before the
first space, and carries the title after that space. -/
theorem lineTimestamp_eq_some {dur : Nat} {line : List Char} {p : Int × List Char}
    (he : lineTimestamp dur line = some p) :
    p.1 < (dur : Int) ∧ ∃ tstr, pySplitFirstSpace line = some (tstr, p.2) ∧
      parseTimestamp tstr = some p.1 := by
  unfold lineTimestamp at he
  split at he
  · cases hsp : pySplitFirstSpace line with
    | none => rw [hsp] at he; exact absurd he (by simp)
    | some q =>
      rw [hsp] at he
      obtain ⟨tstr, title⟩ := q
      simp only at he
      split at he
      · cases hpt : parseTimestamp tstr with
        | none => rw [hpt] at he; exact absurd he (by simp)
        | some seconds =>
          rw [hpt] at he
          simp only at he
          split at he
          next hlt2 =>
            have hp := Option.some.inj he
            refine ⟨?_, tstr, ?_, ?_⟩
            · rw [← hp]; exact hlt2
            · rw [← hp]
            · rw [← hp]; exact hpt
          next => exact absurd he (by simp)
      · exact absurd he (by simp)
  · exact absurd he (by simp)

/-- Inversion of one v1/v2 chapter-extraction step. -/
theorem processLineV1_eq_some {st descLines : List (List Char)} {dur : Nat}
    {line : List Char} {h : Hook}
    (he : processLineV1 st descLines dur line = some h) :
    ∃ p, lineTimestamp dur line = some p ∧ h = mkChapterV1 st descLines line p.2 p.1 := by
  unfold processLineV1 at he
  cases hlt : lineTimestamp dur line with
  | none => rw [hlt] at he; exact absurd he (by simp)
  | some p =>
    rw [hlt] at he
    simp only [Option.map_some'] at he
    exact ⟨p, rfl, (Option.some.inj he).symm⟩

/-- Inversion of one v3 chapter-extraction step. -/
theorem processLineV3_eq_some {st : List (List Char)} {dur : Nat}
    {line : List Char} {h : Hook}
    (he : processLineV3 st dur line = some h) :
    ∃ p, lineTimestamp dur line = some p ∧ h = mkChapterV3 st p.2 p.1 := by
  unfold processLineV3 at he
  cases hlt : lineTimestamp dur line with
  | none => rw [hlt] at he; exact absurd he (by simp)
  | some p =>
    rw [hlt] at he
    simp only [Option.map_some'] at he
    exact ⟨p, rfl, (Option.some.inj he).symm⟩

/-- Every hook of a v1 analysis is the intro hook or a produced chapter of
some description line. -/
theorem mem_analyzeV1 {kw : List (List Char)} {desc : List Char} {dur : Nat}
    {h : Hook} (hm : h ∈ analyzeSegmentsV1 kw desc dur) :
    h = introHook ∨ ∃ line ∈ splitOnChar '\n' desc,
      processLineV1 ((kw.map toLowerStr).dedup) (splitOnChar '\n' desc) dur line
        = some h := by
  unfold analyzeSegmentsV1 at hm
  rw [mem_pySortDesc] at hm
  rcases List.mem_cons.mp hm with h1 | h2
  · exact Or.inl h1
  · right
    have h3 := List.take_subset 5 _ h2
    rw [mem_pySortDesc] at h3
    exact List.mem_filterMap.mp h3

/-- Splitting a separator-free string is the identity fragment. -/
theorem splitOnChar_not_mem (c : Char) :
    ∀ (a : List Char), c ∉ a → splitOnChar c a = [a]
  | [], _ => rfl
  | x :: xs, h => by
    have hx : ¬ x = c := fun hxc => h (hxc ▸ List.mem_cons_self x xs)
    have hxs : c ∉ xs := fun hmem => h (List.mem_cons_of_mem x hmem)
    rw [splitOnChar, if_neg hx, splitOnChar_not_mem c xs hxs]

/-- Splitting at an explicit separator occurrence with a separator-free
prefix. -/
theorem splitOnChar_append (c : Char) :
    ∀ (a r : List Char), c ∉ a →
      splitOnChar c (a ++ c :: r) = a :: splitOnChar c r
  | [], r, _ => by rw [List.nil_append, splitOnChar, if_pos rfl]
  | x :: xs, r, h => by
    have hx : ¬ x = c := fun hxc => h (hxc ▸ List.mem_cons_self x xs)
    have hxs : c ∉ xs := fun hmem => h (List.mem_cons_of_mem x hmem)
    rw [List.cons_append, splitOnChar, if_neg hx,
      splitOnChar_append c xs r hxs]

/-- Claim C1, evaluated on the code: on the two-group colon token `"1:23"`
the shared timestamp conversion returns `3600*1 + 60*23 = 4980` — the
`zip` pairs the weight list left-aligned, so two groups are read as
hours:minutes — whereas the claimed right-aligned minutes:seconds reading
is `1*60 + 23 = 83`. -/
theorem parse_two_group_colon_left_aligned :
    parseTimestamp ['1', ':', '2', '3'] = some 4980 ∧ (4980 : Nat) ≠ 1 * 60 + 23 := by
  decide

/-- `int()` round-trips the unpadded decimal rendering below 100. -/
theorem pyInt_natToDecimal : ∀ n < 100, pyInt (natToDecimal n) = some n := by decide

/-- `int()` round-trips the zero-padded rendering below 100. -/
theorem pyInt_pad2 : ∀ n < 100, pyInt (pad2 n) = some n := by decide

/-- The decimal rendering contains no colon. -/
theorem colon_not_mem_natToDecimal : ∀ n < 100, ':' ∉ natToDecimal n := by decide

/-- The padded rendering contains no colon. -/
theorem colon_not_mem_pad2 : ∀ n < 100, ':' ∉ pad2 n := by decide

/-- Claim C9: parsing is a left inverse of `H:MM:SS` formatting on
`0 ≤ s < 360000`.  With three groups the left-aligned `zip` weighting is
the correct one, so the round-trip holds exactly. -/
theorem parse_format_roundtrip (s : Nat) (hs : s < 360000) :
    parseTimestamp (formatHMS s) = some s := by
  have hH : s / 3600 < 100 := by omega
  have hM : s % 3600 / 60 < 100 := by omega
  have hS : s % 60 < 100 := by omega
  unfold formatHMS parseTimestamp
  rw [splitOnChar_append ':' _ _ (colon_not_mem_natToDecimal _ hH),
    splitOnChar_append ':' _ _ (colon_not_mem_pad2 _ hM),
    splitOnChar_not_mem ':' _ (colon_not_mem_pad2 _ hS)]
  simp [pyInt_natToDecimal _ hH, pyInt_pad2 _ hM, pyInt_pad2 _ hS]
  omega

/-- Witness for C9 at `s = 3723` (formatted `1:02:03`). -/
theorem parse_format_roundtrip_witness :
    (3723 : Nat) < 360000 ∧ parseTimestamp (formatHMS 3723) = some 3723 :=
  ⟨by decide, parse_format_roundtrip 3723 (by decide)⟩

/-- Counterexample to claim C2: the bucketed revision main_app-v3.py, on a
video with empty description and no comment/heatmap signal, returns three
empty buckets — zero segments in total, and in particular no synthesized
intro segment. -/
theorem v3_empty_video_yields_no_segments :
    analyzeSegmentsV3 [] [] 600 [] [] =
      { comments := [], description := [], most_replayed := [] } := by
  decide

/-- Claim C2 as amended: in the merged-list revisions (main-app.py and
main-app-v2.py, with or without the caption feature and with an empty
transcript) the analysis of a video with empty description and no other
signal returns exactly the single synthesized intro segment
(`start_time 0`, `relevance_score 1.0`, type `'intro'`). -/
theorem merged_revisions_empty_video_intro_only
    (kw : List (List Char)) (dur : Nat) (b : Bool) :
    analyzeSegmentsV1 kw [] dur = [introHook] ∧
      analyzeSegmentsV2 kw [] dur b [] = [introHook] := by
  constructor
  · rfl
  · cases b <;> rfl

/-- The single query keyword `'highlight'`. -/
def kwHighlight : List (List Char) :=
  [['h', 'i', 'g', 'h', 'l', 'i', 'g', 'h', 't']]

/-- A one-chapter description `'0:10 x'` (the token parses to 600). -/
def descOneChap : List Char := ['0', ':', '1', '0', ' ', 'x']

/-- The description line of claim C5's worked example. -/
def descC5 : List Char :=
  ['1', ':', '2', '3', ' ', 'B', 'e', 's', 't', ' ', 'h', 'i', 'g', 'h', 'l',
   'i', 'g', 'h', 't', ' ', 'o', 'f', ' ', 't', 'h', 'e', ' ', 'v', 'i', 'd',
   'e', 'o']

/-- Claim C5, evaluated on the code: the line
`"1:23 Best highlight of the video"` with query `{'highlight'}` on a
600-second video yields NO chapter at all — the token `"1:23"` converts to
4980 seconds (left-aligned weights), `4980 ≥ 600`, so the line is skipped
and the analysis returns only the intro hook, instead of the claimed
`engagement`-typed chapter at 83 with a boosted score. -/
theorem highlight_line_rejected_at_600s :
    analyzeSegmentsV1 kwHighlight descC5 600 = [introHook] := by decide

/-- The two-chapter description `'0:20 xa\n0:10 xb'`: two equal-score
chapters listed in descending start order. -/
def descC7 : List Char :=
  ['0', ':', '2', '0', ' ', 'x', 'a', '\n', '0', ':', '1', '0', ' ', 'x', 'b']

/-- Counterexample to claim C7 as stated: on a 2000-second video the two
chapters score equally (0.3 each under an empty query), yet the final
order is `[intro, start 1200, start 600]` — the stable sort keeps the
description order for ties instead of putting the smaller `start_time`
first. -/
theorem equal_score_ties_not_by_start_time :
    (analyzeSegmentsV1 [] descC7 2000).map Hook.start_time = [0, 1200, 600] ∧
      ((analyzeSegmentsV1 [] descC7 2000).getD 1 introHook).relevance_score
        = ((analyzeSegmentsV1 [] descC7 2000).getD 2 introHook).relevance_score := by
  decide

/-- Claim C7 as amended: the final hook sequence is sorted in weakly
descending order of the (boosted, for v2) relevance key; ties keep the
stable pre-sort order (intro first, then chapters in their already-sorted
order), not ascending `start_time`. -/
theorem output_sorted_desc_by_score :
    (∀ (kw : List (List Char)) (desc : List Char) (dur : Nat),
      (analyzeSegmentsV1 kw desc dur).Pairwise
        (fun a b => b.relevance_score ≤ a.relevance_score)) ∧
    (∀ (kw : List (List Char)) (desc : List Char) (dur : Nat) (b : Bool)
        (caps : List CaptionEntry),
      (analyzeSegmentsV2 kw desc dur b caps).Pairwise
        (fun x y => v2SortKey y ≤ v2SortKey x)) := by
  constructor
  · intro kw desc dur
    exact pairwise_pySortDesc _ _
  · intro kw desc dur b caps
    exact pairwise_pySortDesc _ _

/-- A description with a duplicated chapter line:
`'0:10 x\nA\nB\nC\n0:10 x'`. -/
def descC8 : List Char :=
  ['0', ':', '1', '0', ' ', 'x', '\n', 'A', '\n', 'B', '\n', 'C', '\n',
   '0', ':', '1', '0', ' ', 'x']

/-- The context both produced chapters actually carry: the window around
the FIRST occurrence, `'0:10 x a b'`. -/
def ctxWindowC8 : List Char :=
  ['0', ':', '1', '0', ' ', 'x', ' ', 'a', ' ', 'b']

/-- The context the claim attributes to the second occurrence (position 4
of 5 lines): `'b c 0:10 x'`. -/
def ctxClaimedC8 : List Char :=
  ['b', ' ', 'c', ' ', '0', ':', '1', '0', ' ', 'x']

/-- Counterexample to claim C8 as stated: with the chapter line text
duplicated at positions 0 and 4, BOTH produced chapters carry the
first occurrence's window `'0:10 x a b'` (because `list.index` returns
the first index), and no hook carries the window around position 4. -/
theorem claimed_context_absent_for_duplicate_line :
    (analyzeSegmentsV1 [] descC8 1000).map Hook.context
        = [none, some ctxWindowC8, some ctxWindowC8] ∧
      some ctxClaimedC8 ∉ (analyzeSegmentsV1 [] descC8 1000).map Hook.context := by
  decide

/-- Claim C8 as amended: every non-intro hook's context is the lower-cased
space-join of the slice `lines[max(0, i₀-2) : min(len, i₀+3)]` (a Python
half-open slice, i.e. up to two lines before and two after), where `i₀` is
the index of the FIRST occurrence of the chapter line's text in the
description's line sequence. -/
theorem chapter_context_window_first_index (kw : List (List Char))
    (desc : List Char) (dur : Nat) (h : Hook)
    (hm : h ∈ analyzeSegmentsV1 kw desc dur) (hi : h.segment_type ≠ strIntro) :
    ∃ line ∈ splitOnChar '\n' desc,
      h.context = some (toLowerStr (joinSpace (pySlice (splitOnChar '\n' desc)
        (firstIdx (splitOnChar '\n' desc) line - 2)
        (min (splitOnChar '\n' desc).length
          (firstIdx (splitOnChar '\n' desc) line + 3))))) := by
  rcases mem_analyzeV1 hm with rfl | ⟨line, hl, he⟩
  · exact absurd rfl hi
  · obtain ⟨p, hlt, rfl⟩ := processLineV1_eq_some he
    exact ⟨line, hl, rfl⟩

/-- Witness for the amended C8 at a concrete chapter of `descC8`. -/
theorem chapter_context_window_first_index_witness :
    ∃ line ∈ splitOnChar '\n' descC8,
      ((analyzeSegmentsV1 [] descC8 1000).getD 1 introHook).context
        = some (toLowerStr (joinSpace (pySlice (splitOnChar '\n' descC8)
            (firstIdx (splitOnChar '\n' descC8) line - 2)
            (min (splitOnChar '\n' descC8).length
              (firstIdx (splitOnChar '\n' descC8) line + 3))))) :=
  chapter_context_window_first_index [] descC8 1000
    ((analyzeSegmentsV1 [] descC8 1000).getD 1 introHook)
    (by decide) (by decide)

/-- Claim C10: under an empty query-keyword set, every `keyword_match`
chapter published by the weighted revision main-app.py (main-app-v2.py
shares the identical chapter code, modelled by the same definition) has
relevance score exactly `0.5 * 0.6 = 0.3`, not the neutral 0.5: the 0.5
fallback applies only to the title score, the context score falls back to
0, and `keyword_match` typing means no flat engagement bonus was added. -/
theorem empty_query_keyword_match_score (desc : List Char) (dur : Nat) (h : Hook)
    (hm : h ∈ analyzeSegmentsV1 [] desc dur)
    (ht : h.segment_type = strKeywordMatch) :
    h.relevance_score = 3 / 10 := by
  rcases mem_analyzeV1 hm with rfl | ⟨line, _, he⟩
  · exact absurd ht (by decide)
  · obtain ⟨p, hlt, rfl⟩ := processLineV1_eq_some he
    simp only [mkChapterV1] at ht ⊢
    by_cases hb : (indicatorsV1.any fun i => containsSeg i (toLowerStr p.2)) = true
    · rw [if_pos hb] at ht
      exact absurd ht (by decide)
    · rw [Bool.not_eq_true] at hb
      rw [hb] at ht ⊢
      simp only [Bool.false_eq_true, if_false]
      rw [qAdd_eq, qAdd_eq, qMul_eq, qMul_eq]
      norm_num [titleScoreOf, ctxScoreOf, divInt_natCast_eq, Rat.divInt_eq_div]

/-- Witness for C10 at a concrete `keyword_match` chapter. -/
theorem empty_query_keyword_match_score_witness :
    ((analyzeSegmentsV1 [] descOneChap 1000).getD 1 introHook).relevance_score
      = 3 / 10 :=
  empty_query_keyword_match_score descOneChap 1000
    ((analyzeSegmentsV1 [] descOneChap 1000).getD 1 introHook)
    (by decide) (by decide)

/-- The title part of a chapter line (text after the first space; only
used where the first-space split is known to succeed). -/
def lineTitle (line : List Char) : List Char :=
  ((pySplitFirstSpace line).getD ([], [])).2

/-- Modelled from the spec: the 17 engagement-indicator phrases of spec
§4.3 (the spec merges the source's `'dont miss'` / `"don't miss"` pair
into one phrase, so neither code list — 11 in v1/v2, 18 in v3 — has this
cardinality). -/
def specIndicators : List (List Char) :=
  indicatorsV1 ++
  [ ['f', 'a', 'v', 'o', 'r', 'i', 't', 'e'],
    ['b', 'e', 's', 't', ' ', 'p', 'a', 'r', 't'],
    ['d', 'o', 'n', '\'', 't', ' ', 'm', 'i', 's', 's'],
    ['w', 'a', 't', 'c', 'h', ' ', 't', 'h', 'i', 's'],
    ['c', 'h', 'e', 'c', 'k', ' ', 'o', 'u', 't'],
    ['l', 'o', 'o', 'k', ' ', 'a', 't'] ]

/-- Modelled from the claim (C4): the asserted chapter score
`title_score * 0.6 + context_score * 0.2 +
(engagement_hits / |indicator_list|) * 0.3`, with the spec's indicator
list. -/
def claimedChapterScore (st descLines : List (List Char)) (line : List Char) : ℚ :=
  qAdd
    (qAdd (qMul (titleScoreOf st (lineTitle line)) (Rat.divInt 6 10))
          (qMul (ctxScoreOf st (contextOf descLines line)) (Rat.divInt 2 10)))
    (qMul (Rat.divInt (hitsCount specIndicators (lineTitle line) : Int)
            (specIndicators.length : Int))
          (Rat.divInt 3 10))

/-- The query keyword list `['xyz']` (matching nothing). -/
def kwXyz : List (List Char) := [['x', 'y', 'z']]

/-- The chapter line `'0:10 best'`. -/
def lineC4 : List Char := ['0', ':', '1', '0', ' ', 'b', 'e', 's', 't']

/-- Counterexample to claim C4 as stated: the accepted chapter of
`'0:10 best'` under query `{'xyz'}` scores `0.2` in main-app.py (flat
engagement bonus), while the claimed formula gives `(1/17)*0.3 = 3/170`
(and `3/110` or `3/180` under the v1/v3 code lists) — none of which is
`0.2`. -/
theorem chapter_score_not_claimed_formula :
    (processLineV1 kwXyz [lineC4] 1000 lineC4).map Hook.relevance_score
        = some (Rat.divInt 1 5) ∧
      claimedChapterScore kwXyz [lineC4] lineC4 = Rat.divInt 3 170 ∧
      Rat.divInt 1 5 ≠ Rat.divInt 3 170 ∧
      Rat.divInt 1 5 ≠ Rat.divInt 3 110 ∧
      Rat.divInt 1 5 ≠ Rat.divInt 3 180 := by
  decide

/-- An indicator list matches a title iff the hit count is positive. -/
theorem any_eq_hits_pos (inds : List (List Char)) (title : List Char) :
    (inds.any fun i => containsSeg i (toLowerStr title)) = true
      ↔ 0 < hitsCount inds title := by
  rw [List.any_eq_true, hitsCount]
  constructor
  · rintro ⟨i, hi, hp⟩
    exact List.length_pos_of_mem (List.mem_filter.mpr ⟨hi, hp⟩)
  · intro h0
    obtain ⟨i, hi⟩ := List.exists_mem_of_length_pos h0
    rcases List.mem_filter.mp hi with ⟨h1, h2⟩
    exact ⟨i, h1, h2⟩

/-- Claim C4 as amended, the scoring formulas each revision actually
implements for an accepted description chapter: main-app.py /
main-app-v2.py use `title*0.6 + context*0.2` plus a FLAT `+0.2` bonus when
any of their 11 indicators matches the lowered title; main_app-v3.py uses
`title_score + (hits/18)*0.3` over its 18 indicators, with no context term
and no weighting of the title score. -/
theorem chapter_score_formulas :
    (∀ (st descLines : List (List Char)) (dur : Nat) (line : List Char) (h : Hook),
      processLineV1 st descLines dur line = some h →
        h.relevance_score =
          titleScoreOf st (lineTitle line) * (6 / 10)
          + ctxScoreOf st (contextOf descLines line) * (2 / 10)
          + (if 0 < hitsCount indicatorsV1 (lineTitle line) then (2 : ℚ) / 10
             else 0)) ∧
    (∀ (st : List (List Char)) (dur : Nat) (line : List Char) (h : Hook),
      processLineV3 st dur line = some h →
        h.relevance_score =
          titleScoreOf st (lineTitle line)
          + ((hitsCount indicatorsV3 (lineTitle line) : ℚ) / 18) * (3 / 10)) := by
  constructor
  · intro st descLines dur line h he
    obtain ⟨p, hlt, rfl⟩ := processLineV1_eq_some he
    obtain ⟨_, tstr, hsp, _⟩ := lineTimestamp_eq_some hlt
    have hti : lineTitle line = p.2 := by rw [lineTitle, hsp]; rfl
    rw [hti]
    simp only [mkChapterV1]
    rw [qAdd_eq, qAdd_eq, qMul_eq, qMul_eq]
    by_cases hb : (indicatorsV1.any fun i => containsSeg i (toLowerStr p.2)) = true
    · rw [if_pos hb, if_pos ((any_eq_hits_pos _ _).mp hb)]
      norm_num [Rat.divInt_eq_div]
    · have hh : ¬ 0 < hitsCount indicatorsV1 p.2 :=
        fun hpos => hb ((any_eq_hits_pos _ _).mpr hpos)
      rw [if_neg hb, if_neg hh]
      norm_num [Rat.divInt_eq_div]
  · intro st dur line h he
    obtain ⟨p, hlt, rfl⟩ := processLineV3_eq_some he
    obtain ⟨_, tstr, hsp, _⟩ := lineTimestamp_eq_some hlt
    have hti : lineTitle line = p.2 := by rw [lineTitle, hsp]; rfl
    rw [hti]
    simp only [mkChapterV3]
    rw [qAdd_eq, qMul_eq, divInt_natCast_eq]
    norm_num [Rat.divInt_eq_div, show indicatorsV3.length = 18 from rfl]

/-- Witness for the amended C4 at the accepted chapter of `'0:10 best'`. -/
theorem chapter_score_formulas_witness :
    ((processLineV1 kwXyz [lineC4] 1000 lineC4).getD introHook).relevance_score =
      titleScoreOf kwXyz (lineTitle lineC4) * (6 / 10)
      + ctxScoreOf kwXyz (contextOf [lineC4] lineC4) * (2 / 10)
      + (if 0 < hitsCount indicatorsV1 (lineTitle lineC4) then (2 : ℚ) / 10
         else 0) :=
  chapter_score_formulas.1 kwXyz [lineC4] 1000 lineC4
    ((processLineV1 kwXyz [lineC4] 1000 lineC4).getD introHook)
    (by decide)
